import Mathlib

/-!
Verification of the RF acquisition-and-distribution pipeline.

This file gives a shallow embedding of the core of the repository:

* `agent_hal.py`   — `RFHardwareSimulator` (`configure_cosine_wave`,
  `get_simulated_data`, `connect`): configuration state, the synthetic
  signal generator and the spectral pipeline (rfft / magnitude / dB /
  peak normalisation / rfftfreq).
* `agent.py`       — the Flask control handlers (`handle_start_simulation`,
  `handle_stop_simulation`, `handle_configure_cosine`) and the
  `simulation_loop` step behaviour.
* `agent_hal_hardware.py` — the spectral portion of
  `RFHardwareInterface.get_real_time_data` (shared with the simulator).
* `users/consumers.py` — `RFSpectrumConsumer.receive`, the websocket
  command router.

Numeric parameters that Python stores as floats are embedded as exact
rationals (`ℚ`); signal values, which pass through `cos`/`log`, are real
numbers (`ℝ`).  Randomness (`np.random.normal`) and the data parsed from
the oscilloscope are modelled as explicit oracle parameters.
-/

/-! ## Configuration state of `RFHardwareSimulator` (`agent_hal.py`) -/

/-- The mutable attributes of `RFHardwareSimulator` (`agent_hal.py`,
`__init__`).  Phases are real (the second-wave default is `np.pi/4`);
all other numeric fields are rationals. -/
structure SimState where
  connected : Bool
  cosine_frequency_hz : ℚ
  cosine_amplitude_v : ℚ
  cosine_phase_rad : ℝ
  noise_amplitude_v : ℚ
  cosine2_frequency_hz : ℚ
  cosine2_amplitude_v : ℚ
  cosine2_phase_rad : ℝ
  time_per_div_s : ℚ
  num_horizontal_divisions : ℕ
  num_time_points : ℕ
  time_duration_s : ℚ
  sample_rate_hz : ℚ
  spectrum_ref_level_dbm : ℝ

/-- The state built by `RFHardwareSimulator.__init__`: 10 MHz / 1 V main
wave, 0.1 V noise, 20 MHz / 0.5 V / π/4 second wave, 0.2 µs per division,
10 divisions, 1000 points; `time_duration_s` and `sample_rate_hz` are
computed exactly as in lines 29–30 of `agent_hal.py`. -/
noncomputable def initState : SimState :=
  let tpd : ℚ := 2e-7
  let dur : ℚ := tpd * 10
  { connected := true
    cosine_frequency_hz := 10000000
    cosine_amplitude_v := 1
    cosine_phase_rad := 0
    noise_amplitude_v := 1/10
    cosine2_frequency_hz := 20000000
    cosine2_amplitude_v := 1/2
    cosine2_phase_rad := Real.pi / 4
    time_per_div_s := tpd
    num_horizontal_divisions := 10
    num_time_points := 1000
    time_duration_s := dur
    sample_rate_hz := if 0 < dur then 1000 / dur else 500000000
    spectrum_ref_level_dbm := 0 }

/-- Method `RFHardwareSimulator.connect`: always succeeds and sets `connected`. -/
def SimState.connect (st : SimState) : Bool × SimState :=
  (true, { st with connected := true })

/-- Method `RFHardwareSimulator.configure_cosine_wave` (`agent_hal.py` lines
50–81).  Arguments appear in the Python order; `frequency_hz2` and
`amplitude_v2` are `Option`s because the Python parameters default to
`None` (meaning: keep the current value).  Returns the Python boolean
result together with the updated state. -/
def configure_cosine_wave (st : SimState)
    (frequency_hz amplitude_v : ℚ) (phase_rad : ℝ)
    (frequency_hz2 amplitude_v2 : Option ℚ) (phase_rad2 : ℝ)
    (time_per_div_s : ℚ) (num_time_points : ℕ) (noise_v : ℚ) :
    Bool × SimState :=
  if st.connected = false then (false, st)
  else
    let dur : ℚ := time_per_div_s * (st.num_horizontal_divisions : ℚ)
    (true,
      { st with
        cosine_frequency_hz := frequency_hz
        cosine_amplitude_v := amplitude_v
        cosine_phase_rad := phase_rad
        noise_amplitude_v := noise_v
        cosine2_frequency_hz := frequency_hz2.getD st.cosine2_frequency_hz
        cosine2_amplitude_v := amplitude_v2.getD st.cosine2_amplitude_v
        cosine2_phase_rad := phase_rad2
        time_per_div_s := time_per_div_s
        num_time_points := num_time_points
        time_duration_s := dur
        sample_rate_hz := if 0 < dur then (num_time_points : ℚ) / dur else 500000000 })

/-! ## The `/configure_cosine` Flask handler (`agent.py` lines 79–125) -/

/-- A JSON value supplied for one request field: either a number or a
value that `float()` cannot convert (which raises `ValueError`). -/
inductive JVal where
  | num (q : ℚ)
  | nonNumeric (s : String)
deriving DecidableEq

/-- Python `float(v)`: succeeds on numbers, raises (modelled by `none`)
on non-numeric values. -/
def parseFloat : JVal → Option ℚ
  | .num q => some q
  | .nonNumeric _ => none

/-- The JSON body of a `/configure_cosine` request; `none` means the key
is absent (so `data.get` falls back to the current instance value). -/
structure ConfigRequest where
  frequency_hz : Option JVal
  amplitude_v : Option JVal
  frequency_hz2 : Option JVal
  amplitude_v2 : Option JVal
  duration_s : Option JVal
  sample_rate_hz : Option JVal
  noise_v : Option JVal

/-- A request that supplies no field at all. -/
def emptyRequest : ConfigRequest :=
  { frequency_hz := none, amplitude_v := none, frequency_hz2 := none
    amplitude_v2 := none, duration_s := none, sample_rate_hz := none
    noise_v := none }

/-- Python `float(data.get(key, default))`: the default (a number already held by
the instance) always converts; a supplied value must parse. -/
def getParam (field : Option JVal) (dflt : ℚ) : Option ℚ :=
  match field with
  | none => some dflt
  | some v => parseFloat v

/-- A Flask response: a JSON body (status or error message) plus an HTTP
status code. -/
inductive ApiResponse where
  | ok (msg : String) (code : ℕ)
  | err (msg : String) (code : ℕ)
deriving DecidableEq

/-- Python `int(q)` on a float: truncation toward zero. -/
def truncInt (q : ℚ) : ℤ :=
  if 0 ≤ q then ⌊q⌋ else ⌈q⌉

/-- Handler `handle_configure_cosine` (`agent.py` lines 79–125).  All seven
parameters are read (each defaulting to the current instance value); a
`ValueError` in any conversion rejects the request with HTTP 400 before
any state is touched.  `calculated_num_time_points = int(duration_s *
sample_rate_hz)` falls back to the current point count when ≤ 0, and
`configured_time_per_div_s = duration_s / num_horizontal_divisions`.
The call to `configure_cosine_wave` passes the Python defaults
`phase_rad=0.0` and `phase_rad2=np.pi/4` because the handler never
forwards phases. -/
noncomputable def handle_configure_cosine (st : SimState)
    (data : Option ConfigRequest) : ApiResponse × SimState :=
  match data with
  | none => (.err ("Missing JSON payload") 400, st)
  | some d =>
    match getParam d.frequency_hz st.cosine_frequency_hz,
          getParam d.amplitude_v st.cosine_amplitude_v,
          getParam d.frequency_hz2 st.cosine2_frequency_hz,
          getParam d.amplitude_v2 st.cosine2_amplitude_v,
          getParam d.duration_s st.time_duration_s,
          getParam d.sample_rate_hz st.sample_rate_hz,
          getParam d.noise_v st.noise_amplitude_v with
    | some f, some a, some f2, some a2, some dur, some sr, some nv =>
      let calcPts : ℤ := truncInt (dur * sr)
      let n : ℕ := if calcPts ≤ 0 then st.num_time_points else calcPts.toNat
      let tpd : ℚ := dur / (st.num_horizontal_divisions : ℚ)
      let r := configure_cosine_wave st f a 0 (some f2) (some a2)
        (Real.pi / 4) tpd n nv
      if r.1 then (.ok ("Cosine wave & display parameters configured") 200, r.2)
      else (.err ("Failed to configure cosine wave (simulator error)") 500, r.2)
    | _, _, _, _, _, _, _ => (.err ("Invalid data type for parameters.") 400, st)

/-! ## Signal generation and the spectral pipeline
(`RFHardwareSimulator.get_simulated_data`, `agent_hal.py` lines 83–140) -/

/-- Numpy `np.linspace(0, time_duration_s, n, endpoint=False)`: the `k`-th
timestamp is `k * time_duration_s / n`. -/
def time_points_s (st : SimState) : List ℚ :=
  (List.range st.num_time_points).map
    fun k : ℕ => (k : ℚ) * st.time_duration_s / (st.num_time_points : ℚ)

/-- Main-wave samples (`agent_hal.py` lines 97–100):
`cosine_amplitude_v * cos(2π·f·t + phase)` plus the per-sample draw of
`np.random.normal(0, noise_amplitude_v, n)`, supplied as the oracle
`noise` (with scale 0 the draw is exactly 0). -/
noncomputable def amplitude_values_main (st : SimState) (noise : ℕ → ℝ) : List ℝ :=
  (List.range st.num_time_points).map fun k : ℕ =>
    (st.cosine_amplitude_v : ℝ) *
      Real.cos (2 * Real.pi * (st.cosine_frequency_hz : ℝ) *
        (((k : ℚ) * st.time_duration_s / (st.num_time_points : ℚ) : ℚ) : ℝ) +
        st.cosine_phase_rad) + noise k

/-- Secondary-wave samples (`agent_hal.py` lines 103–105): no noise is
added to this trace. -/
noncomputable def amplitude_values_secondary (st : SimState) : List ℝ :=
  (List.range st.num_time_points).map fun k : ℕ =>
    (st.cosine2_amplitude_v : ℝ) *
      Real.cos (2 * Real.pi * (st.cosine2_frequency_hz : ℝ) *
        (((k : ℚ) * st.time_duration_s / (st.num_time_points : ℚ) : ℚ) : ℝ) +
        st.cosine2_phase_rad)

/-- Numpy `np.fft.rfft(x)`: the one-sided discrete Fourier transform of a real
input of length `N`, giving `N/2 + 1` complex bins
`X_k = Σ_j x_j · exp(-2πi·j·k/N)`. -/
noncomputable def rfft (x : List ℝ) : List ℂ :=
  (List.range (x.length / 2 + 1)).map fun k : ℕ =>
    ∑ j ∈ Finset.range x.length,
      ((x.getD j 0 : ℝ) : ℂ) *
        Complex.exp (-(2 * Real.pi * Complex.I * (j : ℂ) * (k : ℂ) / (x.length : ℂ)))

/-- Magnitude `np.abs(np.fft.rfft(x)) / len(x)` (`agent_hal.py` line 109). -/
noncomputable def fft_magnitude (x : List ℝ) : List ℝ :=
  (rfft x).map fun c => Complex.abs c / (x.length : ℝ)

/-- Decibel conversion `20 * np.log10(fft_magnitude + 1e-12)` (`agent_hal.py` lines 110–111). -/
noncomputable def power_spectrum_db (x : List ℝ) : List ℝ :=
  (fft_magnitude x).map fun m => 20 * Real.logb 10 (m + 1e-12)

/-- Numpy `np.max` on a (non-empty) list; on `[]` numpy raises, here the value
is the irrelevant default 0. -/
noncomputable def npMax : List ℝ → ℝ
  | [] => 0
  | [x] => x
  | x :: y :: ys => max x (npMax (y :: ys))

/-- Normalisation `power_spectrum_db - np.max(power_spectrum_db) + spectrum_ref_level_dbm`
(`agent_hal.py` line 112): the returned spectrum is peak-normalised to the
reference level. -/
noncomputable def fft_power_dbm (x : List ℝ) (ref : ℝ) : List ℝ :=
  (power_spectrum_db x).map fun p => p - npMax (power_spectrum_db x) + ref

/-- Numpy `np.fft.rfftfreq(n, d)` with `d = 1.0/sample_rate_hz if sample_rate_hz
> 0 else 1` (`agent_hal.py` line 114): `n/2 + 1` frequencies `k / (d·n)`. -/
def fft_frequencies_hz (n : ℕ) (sample_rate_hz : ℚ) : List ℚ :=
  (List.range (n / 2 + 1)).map fun k : ℕ =>
    (k : ℚ) / ((if 0 < sample_rate_hz then 1 / sample_rate_hz else 1) * (n : ℚ))

/-- The payload assembled by `get_simulated_data` (the fields the claims
are about; `wave_details` entries that merely echo the configuration are
represented by the configuration snapshot itself elsewhere). -/
structure Frame where
  time_s : List ℚ
  amplitude_v_main : List ℝ
  amplitude_v_secondary : List ℝ
  fft_frequencies_hz : List ℚ
  fft_power_dbm : List ℝ
  ref_level_dbm : ℝ
  num_points_fft : ℕ

/-- Method `RFHardwareSimulator.get_simulated_data` (`agent_hal.py` lines
83–140): `None` when not connected or when the configured point count is
not positive, otherwise one acquired frame.  The slice
`fft_frequencies_hz[:len(fft_power_dbm)]` is the `List.take`. -/
noncomputable def get_simulated_data (st : SimState) (noise : ℕ → ℝ) : Option Frame :=
  if st.connected = false then none
  else if st.num_time_points ≤ 0 then none
  else
    let main := amplitude_values_main st noise
    let power := fft_power_dbm main st.spectrum_ref_level_dbm
    let freqs := (fft_frequencies_hz st.num_time_points st.sample_rate_hz).take power.length
    some
      { time_s := time_points_s st
        amplitude_v_main := main
        amplitude_v_secondary := amplitude_values_secondary st
        fft_frequencies_hz := freqs
        fft_power_dbm := power
        ref_level_dbm := st.spectrum_ref_level_dbm
        num_points_fft := freqs.length }

/-! ## The hardware variant (`agent_hal_hardware.py`)
Only the spectral stage of `RFHardwareInterface.get_real_time_data`
(lines 196–210) is embedded; the SCPI query/parse round trip that yields
`amplitude_values` is an oracle parameter. -/

/-- The attributes of `RFHardwareInterface` used by the spectral stage. -/
structure HwState where
  connected : Bool
  spectrum_ref_level_dbm : ℝ

/-- Method `RFHardwareInterface.get_real_time_data`, spectral portion: `None`
when not connected or when no waveform data was parsed, otherwise the
peak-normalised power spectrum of the parsed samples (lines 196–207,
identical arithmetic to the simulator). -/
noncomputable def get_real_time_data (st : HwState) (amplitude_values : List ℝ) :
    Option (List ℝ) :=
  if st.connected = false then none
  else if amplitude_values = [] then none
  else some (fft_power_dbm amplitude_values st.spectrum_ref_level_dbm)

/-! ## Agent control API (`agent.py` lines 15–76) -/

/-- The module-level agent state: `sim_active`, `sim_thread` (modelled
as `some isAlive` when a thread object exists) and the global
`rf_simulator_instance`. -/
structure AgentState where
  sim_active : Bool
  sim_thread : Option Bool
  hal : SimState

/-- Handler `handle_start_simulation` (`agent.py` lines 48–64): a start while the
loop is already active is a no-op reporting success; otherwise the
simulator is connected if necessary (the simulator `connect` always
succeeds) and a fresh loop thread is started. -/
def handle_start_simulation (st : AgentState) : ApiResponse × AgentState :=
  if st.sim_active = true ∧ st.sim_thread = some true then
    (.ok ("Simulation already active") 200, st)
  else
    let c := if st.hal.connected = false then st.hal.connect else (true, st.hal)
    if c.1 = false then
      (.err ("Error: Could not connect to simulator/hardware.") 500, { st with hal := c.2 })
    else
      (.ok ("Simulation started") 200,
        { sim_active := true, sim_thread := some true, hal := c.2 })

/-- Handler `handle_stop_simulation` (`agent.py` lines 67–76): clears the loop
flag, joins the thread with a bounded timeout, drops the handle, and
always reports success. -/
def handle_stop_simulation (st : AgentState) : ApiResponse × AgentState :=
  (.ok ("Simulation stopped") 200, { st with sim_active := false, sim_thread := none })

/-- One event the agent can process: a tick of `simulation_loop` (with
its noise oracle), or one of the three control commands. -/
inductive AgentEvent where
  | tick (noise : ℕ → ℝ)
  | startCmd
  | stopCmd
  | configureCmd (data : Option ConfigRequest)

/-- One step of the agent.  A `tick` is one iteration of
`simulation_loop` (`agent.py` lines 32–41): while `sim_active`, acquire
`get_simulated_data()`; if it is truthy send it to the backend (the
returned list of emitted frames), otherwise skip; the loop body never
writes `sim_active`.  Control events run the corresponding Flask
handler. -/
noncomputable def agentStep (st : AgentState) (e : AgentEvent) :
    AgentState × List Frame :=
  match e with
  | .tick noise =>
    if st.sim_active = true then
      match get_simulated_data st.hal noise with
      | some fr => (st, [fr])
      | none => (st, [])
    else (st, [])
  | .startCmd => ((handle_start_simulation st).2, [])
  | .stopCmd => ((handle_stop_simulation st).2, [])
  | .configureCmd d => ({ st with hal := (handle_configure_cosine st.hal d).2 }, [])

/-- Run a sequence of events from a state (one possible execution). -/
noncomputable def runEvents (st : AgentState) (es : List AgentEvent) : AgentState :=
  es.foldl (fun s e => (agentStep s e).1) st

/-! ## The websocket command router
(`RFSpectrumConsumer.receive`, `users/consumers.py` lines 150–218) -/

/-- An inbound websocket text message after `json.loads`: malformed JSON,
a JSON value that is not an object (so `data.get` raises, caught by the
generic handler), or an object with its relevant keys. -/
inductive InboundMsg where
  | badJson
  | notDict
  | msg (command_type : Option String) (command : Option String)
      (params : Option ConfigRequest)

/-- The outcome of the `requests.post` the consumer makes to the agent: a network
error, or a JSON reply carrying optional `error` and `status` keys. -/
inductive AgentHttpResult where
  | netError
  | reply (error : Option String) (status : Option String)

/-- One acknowledgment sent back over the websocket:
`{type: kind, message: message}`. -/
structure Ack where
  kind : String
  message : String
deriving DecidableEq

/-- Python f-string interpolation of an optional value: `None` prints as
`"None"`. -/
def optRepr : Option String → String
  | some s => s
  | none => "None"

/-- The known-command relay path of `receive`: forward to the agent and
turn its reply into the acknowledgment (reflecting an `error` key, a
`status` key, or keeping the preset message).  The source interpolates
the command into the relay-failure message between single quotes; the
quotes are omitted here. -/
def respondViaAgent (agent : AgentHttpResult) (command preset : String) : Ack :=
  match agent with
  | .netError => ⟨"error_response", "Error relaying (" ++ command ++ ") to agent."⟩
  | .reply e s =>
    match e with
    | some msg => ⟨"error_response", "Agent error: " ++ msg⟩
    | none =>
      match s with
      | some msg => ⟨"command_response", "Agent: " ++ msg⟩
      | none => ⟨"command_response", preset⟩

/-- The three command values `receive` recognises under
`command_type = "rf_control"`. -/
def knownRfCommands : List String :=
  ["start_simulation", "stop_simulation", "configure_cosine"]

/-- Method `RFSpectrumConsumer.receive` (`users/consumers.py` lines 150–218) as
a function from the parsed inbound message and the agent call outcome to
the list of acknowledgments sent to the client (the method ends with
exactly one `self.send`, on every path).  The `kind` is
`"command_response"` on success and `"error_response"` otherwise. -/
def receive (m : InboundMsg) (agent : AgentHttpResult) : List Ack :=
  match m with
  | .badJson => [⟨"error_response", "Invalid command format."⟩]
  | .notDict => [⟨"error_response", "Error processing command."⟩]
  | .msg command_type command _params =>
    if command_type = some ("rf_control") then
      if command = some ("start_simulation") then
        [respondViaAgent agent ("start_simulation") "Simulation started by agent."]
      else if command = some ("stop_simulation") then
        [respondViaAgent agent ("stop_simulation") "Simulation stopped by agent."]
      else if command = some ("configure_cosine") then
        [respondViaAgent agent ("configure_cosine")
          "Cosine wave & display parameters sent to agent."]
      else
        [⟨"error_response", "Unknown RF command: " ++ optRepr command⟩]
    else
      [⟨"error_response", "Unknown command type: " ++ optRepr command_type⟩]

/-! ## Helper lemmas -/

/-- Indexing a mapped range below its length. -/
theorem getD_range_map {α : Type*} (f : ℕ → α) (d : α) {n k : ℕ} (h : k < n) :
    ((List.range n).map f).getD k d = f k := by
  simp [List.getD_eq_getElem?_getD, List.getElem?_map, List.getElem?_range h]

/-- Indexing a mapped list below its length. -/
theorem getD_map_lt {α β : Type*} (l : List α) (f : α → β) {k : ℕ}
    (h : k < l.length) (d : β) (d' : α) :
    (l.map f).getD k d = f (l.getD k d') := by
  simp [List.getD_eq_getElem?_getD, List.getElem?_map, List.getElem?_eq_getElem h]

theorem npMax_cons_cons (x y : ℝ) (ys : List ℝ) :
    npMax (x :: y :: ys) = max x (npMax (y :: ys)) := rfl

/-- Every member of a list is at most its `npMax`. -/
theorem le_npMax_of_mem {x : ℝ} : ∀ {l : List ℝ}, x ∈ l → x ≤ npMax l := by
  intro l
  induction l with
  | nil => intro h; simp at h
  | cons a as ih =>
    intro h
    cases as with
    | nil =>
      have : x = a := by simpa using h
      simp [npMax, this]
    | cons b bs =>
      rcases List.mem_cons.mp h with h1 | h2
      · rw [h1, npMax_cons_cons]; exact le_max_left _ _
      · exact le_trans (ih h2) (by rw [npMax_cons_cons]; exact le_max_right _ _)

/-- Lemma: `npMax` commutes with the affine map `p ↦ p - c + r` on non-empty
lists. -/
theorem npMax_map_affine (c r : ℝ) :
    ∀ l : List ℝ, l ≠ [] →
      npMax (l.map fun p => p - c + r) = npMax l - c + r := by
  intro l
  induction l with
  | nil => intro h; exact absurd rfl h
  | cons a as ih =>
    intro _
    cases as with
    | nil => simp [npMax]
    | cons b bs =>
      have hbs : (b :: bs) ≠ [] := by simp
      calc npMax ((a :: b :: bs).map fun p => p - c + r)
          = max (a - c + r) (npMax ((b :: bs).map fun p => p - c + r)) := by
            simp [npMax_cons_cons]
        _ = max (a - c + r) (npMax (b :: bs) - c + r) := by rw [ih hbs]
        _ = max a (npMax (b :: bs)) - c + r := by
            rw [← max_sub_sub_right, ← max_add_add_right]
        _ = npMax (a :: b :: bs) - c + r := by rw [npMax_cons_cons]

/-- Lemma: `npMax` of a constant non-empty list. -/
theorem npMax_replicate (n : ℕ) (c : ℝ) : npMax (List.replicate (n + 1) c) = c := by
  induction n with
  | zero => simp [npMax]
  | succ m ih =>
    have : List.replicate (m + 2) c = c :: List.replicate (m + 1) c := rfl
    rw [this]
    cases hm : List.replicate (m + 1) c with
    | nil => simp at hm
    | cons y ys =>
      rw [← hm, hm, npMax_cons_cons, ← hm, ih, max_self]

theorem rfft_length (x : List ℝ) : (rfft x).length = x.length / 2 + 1 := by
  unfold rfft
  rw [List.length_map, List.length_range]

theorem fft_magnitude_length (x : List ℝ) :
    (fft_magnitude x).length = x.length / 2 + 1 := by
  unfold fft_magnitude
  rw [List.length_map, rfft_length]

theorem power_spectrum_db_length (x : List ℝ) :
    (power_spectrum_db x).length = x.length / 2 + 1 := by
  unfold power_spectrum_db
  rw [List.length_map, fft_magnitude_length]

theorem fft_power_dbm_length (x : List ℝ) (ref : ℝ) :
    (fft_power_dbm x ref).length = x.length / 2 + 1 := by
  unfold fft_power_dbm
  rw [List.length_map, power_spectrum_db_length]

theorem fft_frequencies_hz_length (n : ℕ) (sr : ℚ) :
    (fft_frequencies_hz n sr).length = n / 2 + 1 := by
  unfold fft_frequencies_hz
  rw [List.length_map, List.length_range]

/-- The one-sided DFT of the all-zero input is the all-zero spectrum. -/
theorem rfft_replicate_zero (N : ℕ) :
    rfft (List.replicate N 0) = List.replicate (N / 2 + 1) 0 := by
  have hz : ∀ j : ℕ, (List.replicate N (0 : ℝ)).getD j 0 = 0 := by
    intro j
    by_cases hj : j < N
    · simp [List.getD_eq_getElem?_getD, List.getElem?_replicate, hj]
    · simp [List.getD_eq_getElem?_getD, List.getElem?_replicate, hj]
  unfold rfft
  refine List.eq_replicate_iff.mpr ⟨?_, ?_⟩
  · rw [List.length_map, List.length_range, List.length_replicate]
  · intro c hc
    rw [List.mem_map] at hc
    obtain ⟨k, _, rfl⟩ := hc
    apply Finset.sum_eq_zero
    intro j _
    rw [hz j]
    simp

/-! ## Claim theorems -/

/-- C1.  For every valid configuration (at least one sample point, a
positive sample rate consistent with `sample_rate = sample_count /
time_span`, connected source), one acquisition returns a time axis of
exactly `num_time_points` timestamps that start at 0, lie in
`[0, time_span)`, and are uniformly spaced with spacing exactly
`1 / sample_rate = time_span / sample_count`. -/
theorem acquire_time_axis_uniform (st : SimState) (noise : ℕ → ℝ)
    (hconn : st.connected = true)
    (hn : 1 ≤ st.num_time_points)
    (hsr : 0 < st.sample_rate_hz)
    (hcons : st.sample_rate_hz = (st.num_time_points : ℚ) / st.time_duration_s) :
    ∃ fr : Frame, get_simulated_data st noise = some fr ∧
      fr.time_s.length = st.num_time_points ∧
      fr.time_s.getD 0 0 = 0 ∧
      (∀ k, k < st.num_time_points →
        0 ≤ fr.time_s.getD k 0 ∧ fr.time_s.getD k 0 < st.time_duration_s) ∧
      (∀ k, k + 1 < st.num_time_points →
        fr.time_s.getD (k + 1) 0 - fr.time_s.getD k 0 = 1 / st.sample_rate_hz) ∧
      1 / st.sample_rate_hz = st.time_duration_s / (st.num_time_points : ℚ) := by
  have hnq : (0 : ℚ) < (st.num_time_points : ℚ) := by exact_mod_cast hn
  have hdur : 0 < st.time_duration_s := by
    rcases lt_trichotomy st.time_duration_s 0 with h | h | h
    · exact absurd hsr (by rw [hcons]; simp [not_lt, le_of_lt (div_neg_of_pos_of_neg hnq h)])
    · exact absurd hsr (by rw [hcons, h]; simp)
    · exact h
  have hcf : ¬st.connected = false := by simp [hconn]
  have hn0 : ¬st.num_time_points ≤ 0 := by omega
  have hspc : 1 / st.sample_rate_hz = st.time_duration_s / (st.num_time_points : ℚ) := by
    rw [hcons, one_div_div]
  have hget : ∀ {k : ℕ}, k < st.num_time_points →
      (time_points_s st).getD k 0 =
        (k : ℚ) * st.time_duration_s / (st.num_time_points : ℚ) := by
    intro k hk
    unfold time_points_s
    exact getD_range_map _ _ hk
  refine ⟨⟨time_points_s st, amplitude_values_main st noise,
      amplitude_values_secondary st,
      (fft_frequencies_hz st.num_time_points st.sample_rate_hz).take
        (fft_power_dbm (amplitude_values_main st noise) st.spectrum_ref_level_dbm).length,
      fft_power_dbm (amplitude_values_main st noise) st.spectrum_ref_level_dbm,
      st.spectrum_ref_level_dbm,
      ((fft_frequencies_hz st.num_time_points st.sample_rate_hz).take
        (fft_power_dbm (amplitude_values_main st noise) st.spectrum_ref_level_dbm).length).length⟩,
    ?_, ?_, ?_, ?_, ?_, hspc⟩
  · unfold get_simulated_data
    rw [if_neg hcf, if_neg hn0]
  · unfold time_points_s
    rw [List.length_map, List.length_range]
  · rw [hget (by omega)]
    simp
  · intro k hk
    rw [hget hk]
    constructor
    · positivity
    · rw [div_lt_iff₀ hnq]
      have hkq : (k : ℚ) < (st.num_time_points : ℚ) := by exact_mod_cast hk
      nlinarith
  · intro k hk
    rw [hget hk, hget (by omega : k < st.num_time_points), hspc]
    push_cast
    ring

/-- C1 witness: the `__init__` configuration is valid and the theorem
applies to it. -/
theorem acquire_time_axis_uniform_witness :
    (initState.connected = true ∧ 1 ≤ initState.num_time_points ∧
      0 < initState.sample_rate_hz ∧
      initState.sample_rate_hz = (initState.num_time_points : ℚ) / initState.time_duration_s) ∧
    ∃ fr, get_simulated_data initState (fun _ => 0) = some fr ∧
      fr.time_s.length = initState.num_time_points := by
  have h1 : initState.connected = true := rfl
  have h2 : 1 ≤ initState.num_time_points := by norm_num [initState]
  have h3 : 0 < initState.sample_rate_hz := by norm_num [initState]
  have h4 : initState.sample_rate_hz =
      (initState.num_time_points : ℚ) / initState.time_duration_s := by
    norm_num [initState]
  obtain ⟨fr, hfr, hlen, -⟩ :=
    acquire_time_axis_uniform initState (fun _ => 0) h1 h2 h3 h4
  exact ⟨⟨h1, h2, h3, h4⟩, fr, hfr, hlen⟩

/-- When connected with a positive point count, `get_simulated_data`
returns exactly one frame, assembled from the generator and the spectral
pipeline. -/
theorem get_simulated_data_some (st : SimState) (noise : ℕ → ℝ)
    (hconn : st.connected = true) (hn : 1 ≤ st.num_time_points) :
    get_simulated_data st noise = some
      ⟨time_points_s st, amplitude_values_main st noise,
        amplitude_values_secondary st,
        (fft_frequencies_hz st.num_time_points st.sample_rate_hz).take
          (fft_power_dbm (amplitude_values_main st noise) st.spectrum_ref_level_dbm).length,
        fft_power_dbm (amplitude_values_main st noise) st.spectrum_ref_level_dbm,
        st.spectrum_ref_level_dbm,
        ((fft_frequencies_hz st.num_time_points st.sample_rate_hz).take
          (fft_power_dbm (amplitude_values_main st noise) st.spectrum_ref_level_dbm).length).length⟩ := by
  unfold get_simulated_data
  rw [if_neg (by simp [hconn]), if_neg (by omega)]

/-- The property C2 claims: each sample of the acquired main batch is the
SUM of the instantaneous values of both configured waves
`amplitude·cos(2π·f·t + phase)` plus the noise draw for that sample. -/
def sampleEqualsSumOfWaves : Prop :=
  ∀ (st : SimState) (noise : ℕ → ℝ) (fr : Frame),
    get_simulated_data st noise = some fr →
    ∀ k, k < st.num_time_points →
      fr.amplitude_v_main.getD k 0 =
        (st.cosine_amplitude_v : ℝ) *
            Real.cos (2 * Real.pi * (st.cosine_frequency_hz : ℝ) *
              (((k : ℚ) * st.time_duration_s / (st.num_time_points : ℚ) : ℚ) : ℝ) +
              st.cosine_phase_rad) +
          (st.cosine2_amplitude_v : ℝ) *
            Real.cos (2 * Real.pi * (st.cosine2_frequency_hz : ℝ) *
              (((k : ℚ) * st.time_duration_s / (st.num_time_points : ℚ) : ℚ) : ℝ) +
              st.cosine2_phase_rad) +
          noise k

/-- C2 counterexample: at the `__init__` configuration (second wave 0.5 V
at π/4 phase) with the noise oracle 0, sample 0 of the acquired main
batch is `1·cos 0 = 1`, not the two-wave sum `1 + (1/2)·cos(π/4) =
1 + √2/4`: the code keeps the waves in separate traces and never sums
them. -/
theorem acquired_batch_not_sum_of_waves : ¬sampleEqualsSumOfWaves := by
  intro h
  have hn : 1 ≤ initState.num_time_points := by norm_num [initState]
  have hfr := get_simulated_data_some initState (fun _ => 0) rfl hn
  have h0 := h initState (fun _ => 0) _ hfr 0 (by omega)
  dsimp only at h0
  unfold amplitude_values_main at h0
  rw [getD_range_map _ _ (by omega : 0 < initState.num_time_points)] at h0
  have e1 : ((0 : ℕ) : ℚ) * initState.time_duration_s /
      (initState.num_time_points : ℚ) = 0 := by norm_num
  rw [e1] at h0
  have e2 : initState.cosine_phase_rad = 0 := rfl
  have e3 : initState.cosine2_phase_rad = Real.pi / 4 := rfl
  have e4 : initState.cosine_amplitude_v = 1 := rfl
  have e5 : initState.cosine2_amplitude_v = 1 / 2 := rfl
  rw [e2, e3, e4, e5] at h0
  push_cast at h0
  simp only [mul_zero, zero_add, add_zero, Real.cos_zero, mul_one, one_mul] at h0
  rw [Real.cos_pi_div_four] at h0
  have hs2 : 0 < Real.sqrt 2 := Real.sqrt_pos.mpr (by norm_num)
  nlinarith [h0, hs2]

/-- C2 (amended).  Each sample of the acquired main batch equals the MAIN
wave instantaneous value `amplitude·cos(2π·f·t + phase)` plus the noise
draw of that sample; the second wave is reported as a separate,
noise-free trace, not summed into the main batch.  With the noise draws
all zero (a normal distribution of standard deviation 0), main amplitude
2.0 and phase 0, sample 0 equals `2·cos 0 = 2` exactly.  When connected
with a positive point count, these lists are exactly the acquired
two amplitude traces of the acquired frame. -/
theorem acquired_batch_per_wave (st : SimState) (noise : ℕ → ℝ) :
    (∀ k, k < st.num_time_points →
      (amplitude_values_main st noise).getD k 0 =
        (st.cosine_amplitude_v : ℝ) *
          Real.cos (2 * Real.pi * (st.cosine_frequency_hz : ℝ) *
            (((k : ℚ) * st.time_duration_s / (st.num_time_points : ℚ) : ℚ) : ℝ) +
            st.cosine_phase_rad) + noise k ∧
      (amplitude_values_secondary st).getD k 0 =
        (st.cosine2_amplitude_v : ℝ) *
          Real.cos (2 * Real.pi * (st.cosine2_frequency_hz : ℝ) *
            (((k : ℚ) * st.time_duration_s / (st.num_time_points : ℚ) : ℚ) : ℝ) +
            st.cosine2_phase_rad)) ∧
    ((∀ k, noise k = 0) → st.cosine_amplitude_v = 2 → st.cosine_phase_rad = 0 →
      1 ≤ st.num_time_points → (amplitude_values_main st noise).getD 0 0 = 2) ∧
    (st.connected = true → 1 ≤ st.num_time_points →
      ∃ fr, get_simulated_data st noise = some fr ∧
        fr.amplitude_v_main = amplitude_values_main st noise ∧
        fr.amplitude_v_secondary = amplitude_values_secondary st) := by
  refine ⟨?_, ?_, ?_⟩
  · intro k hk
    constructor
    · unfold amplitude_values_main
      rw [getD_range_map _ _ hk]
    · unfold amplitude_values_secondary
      rw [getD_range_map _ _ hk]
  · intro hz ha hp hn
    unfold amplitude_values_main
    rw [getD_range_map _ _ (by omega : 0 < st.num_time_points)]
    rw [hz 0, ha, hp]
    have e1 : ((0 : ℕ) : ℚ) * st.time_duration_s / (st.num_time_points : ℚ) = 0 := by
      norm_num
    rw [e1]
    norm_num [Real.cos_zero]
  · intro hconn hn
    exact ⟨_, get_simulated_data_some st noise hconn hn, rfl, rfl⟩

/-- C2 witness: a configuration with main amplitude 2 V, phase 0 and the
zero noise oracle, at which sample 0 is exactly 2. -/
theorem acquired_batch_per_wave_witness :
    ((∀ k : ℕ, (fun _ : ℕ => (0 : ℝ)) k = 0) ∧
      ({ initState with cosine_amplitude_v := 2 } : SimState).cosine_amplitude_v = 2 ∧
      ({ initState with cosine_amplitude_v := 2 } : SimState).cosine_phase_rad = 0 ∧
      1 ≤ ({ initState with cosine_amplitude_v := 2 } : SimState).num_time_points) ∧
    (amplitude_values_main { initState with cosine_amplitude_v := 2 }
      (fun _ => 0)).getD 0 0 = 2 := by
  have h1 : ∀ k : ℕ, (fun _ : ℕ => (0 : ℝ)) k = 0 := fun _ => rfl
  have h2 : ({ initState with cosine_amplitude_v := 2 } : SimState).cosine_amplitude_v = 2 := rfl
  have h3 : ({ initState with cosine_amplitude_v := 2 } : SimState).cosine_phase_rad = 0 := rfl
  have h4 : 1 ≤ ({ initState with cosine_amplitude_v := 2 } : SimState).num_time_points := by
    norm_num [initState]
  exact ⟨⟨h1, h2, h3, h4⟩,
    (acquired_batch_per_wave { initState with cosine_amplitude_v := 2 }
      (fun _ => 0)).2.1 h1 h2 h3 h4⟩

/-- C3.  On a real input of length `N ≥ 1` with a positive sample rate,
the spectral stage produces exactly `N/2 + 1` bins with
`magnitude[k] = |rfft(x)[k]| / N`,
`power_db[k] = 20·log10(magnitude[k] + 1e-12)` and
`frequency[k] = k·sr/N`; and on the all-zero input of length `N` the
returned (peak-normalised) spectrum is `N/2 + 1` copies of the reference
level — finite real dB values, the ε = 1e-12 guarding the log of zero. -/
theorem analyze_bins_formulas :
    (∀ (x : List ℝ) (sr : ℚ), x ≠ [] → 0 < sr →
      (power_spectrum_db x).length = x.length / 2 + 1 ∧
      (fft_frequencies_hz x.length sr).length = x.length / 2 + 1 ∧
      (∀ k, k < x.length / 2 + 1 →
        (fft_magnitude x).getD k 0 =
          Complex.abs ((rfft x).getD k 0) / (x.length : ℝ) ∧
        (power_spectrum_db x).getD k 0 =
          20 * Real.logb 10 ((fft_magnitude x).getD k 0 + 1e-12) ∧
        (fft_frequencies_hz x.length sr).getD k 0 =
          (k : ℚ) * sr / (x.length : ℚ))) ∧
    (∀ (N : ℕ) (ref : ℝ), 1 ≤ N →
      fft_power_dbm (List.replicate N 0) ref = List.replicate (N / 2 + 1) ref) := by
  constructor
  · intro x sr hx hsr
    have hxlen : 0 < x.length := List.length_pos.mpr hx
    refine ⟨power_spectrum_db_length x, fft_frequencies_hz_length x.length sr, ?_⟩
    intro k hk
    refine ⟨?_, ?_, ?_⟩
    · unfold fft_magnitude
      rw [getD_map_lt _ _ (by rw [rfft_length]; omega) 0 0]
    · unfold power_spectrum_db
      rw [getD_map_lt _ _ (by rw [fft_magnitude_length]; omega) 0 0]
    · unfold fft_frequencies_hz
      rw [getD_range_map _ _ hk, if_pos hsr]
      have hx0 : (x.length : ℚ) ≠ 0 := by exact_mod_cast hxlen.ne.symm
      field_simp
  · intro N ref hN
    have hpsd : power_spectrum_db (List.replicate N 0) =
        List.replicate (N / 2 + 1) (20 * Real.logb 10 (0 + 1e-12)) := by
      unfold power_spectrum_db fft_magnitude
      rw [rfft_replicate_zero, List.map_replicate, List.map_replicate]
      simp
    unfold fft_power_dbm
    rw [hpsd, npMax_replicate, List.map_replicate]
    simp

/-- C3 witness: the singleton input `[1]` with sample rate 1, and the
all-zero input of length 1. -/
theorem analyze_bins_formulas_witness :
    (([(1 : ℝ)] : List ℝ) ≠ [] ∧ (0 : ℚ) < 1 ∧ 1 ≤ (1 : ℕ)) ∧
    (power_spectrum_db [(1 : ℝ)]).length = 1 ∧
    fft_power_dbm (List.replicate 1 (0 : ℝ)) 0 = List.replicate 1 0 := by
  have h1 : ([(1 : ℝ)] : List ℝ) ≠ [] := by simp
  have h2 : (0 : ℚ) < 1 := by norm_num
  have h3 : (1 : ℕ) ≤ 1 := le_refl 1
  obtain ⟨hlen, -, -⟩ := analyze_bins_formulas.1 [(1 : ℝ)] 1 h1 h2
  exact ⟨⟨h1, h2, h3⟩, hlen, analyze_bins_formulas.2 1 0 h3⟩

/-- A consequence of the property C4 claims: if a supplied field violates
the range rules (here: a non-positive frequency), the handler must reject
the whole update with an error (no success response) and leave the
configuration unchanged. -/
def configureValidatesRanges : Prop :=
  ∀ (st : SimState) (d : ConfigRequest) (q : ℚ),
    d.frequency_hz = some (.num q) → q ≤ 0 →
    (∀ m c, (handle_configure_cosine st (some d)).1 ≠ .ok m c) ∧
    (handle_configure_cosine st (some d)).2 = st

/-- C4 counterexample: supplying `frequency_hz = -1` (invalid per the
claimed rule `frequency > 0`) is happily accepted with HTTP 200 — the
handler performs no range validation at all. -/
theorem configure_accepts_invalid_frequency : ¬configureValidatesRanges := by
  intro h
  obtain ⟨hno, -⟩ :=
    h initState { emptyRequest with frequency_hz := some (.num (-1)) } (-1) rfl
      (by norm_num)
  apply hno ("Cosine wave & display parameters configured") 200
  simp [handle_configure_cosine, emptyRequest, getParam, parseFloat,
    configure_cosine_wave, initState]

/-- C4 (amended).  The handler validates supplied fields only for numeric
type: if any supplied field fails `float()` conversion the whole update
is rejected with HTTP 400 and no configuration field changes (the
rejection is atomic, all conversions happening before any state is
applied); range constraints such as `frequency > 0` are not checked. -/
theorem configure_rejects_only_type_errors (st : SimState) (d : ConfigRequest)
    (hbad : getParam d.frequency_hz st.cosine_frequency_hz = none ∨
      getParam d.amplitude_v st.cosine_amplitude_v = none ∨
      getParam d.frequency_hz2 st.cosine2_frequency_hz = none ∨
      getParam d.amplitude_v2 st.cosine2_amplitude_v = none ∨
      getParam d.duration_s st.time_duration_s = none ∨
      getParam d.sample_rate_hz st.sample_rate_hz = none ∨
      getParam d.noise_v st.noise_amplitude_v = none) :
    handle_configure_cosine st (some d) =
      (.err ("Invalid data type for parameters.") 400, st) := by
  rcases h1 : getParam d.frequency_hz st.cosine_frequency_hz with _ | f <;>
    rcases h2 : getParam d.amplitude_v st.cosine_amplitude_v with _ | a <;>
      rcases h3 : getParam d.frequency_hz2 st.cosine2_frequency_hz with _ | f2 <;>
        rcases h4 : getParam d.amplitude_v2 st.cosine2_amplitude_v with _ | a2 <;>
          rcases h5 : getParam d.duration_s st.time_duration_s with _ | dur <;>
            rcases h6 : getParam d.sample_rate_hz st.sample_rate_hz with _ | sr <;>
              rcases h7 : getParam d.noise_v st.noise_amplitude_v with _ | nv <;>
                simp_all [handle_configure_cosine]

/-- C4 witness: a request whose `frequency_hz` is the non-numeric string
`"abc"` is rejected atomically. -/
theorem configure_rejects_only_type_errors_witness :
    getParam ({ emptyRequest with
        frequency_hz := some (.nonNumeric ("abc")) } : ConfigRequest).frequency_hz
      initState.cosine_frequency_hz = none ∧
    handle_configure_cosine initState
        (some { emptyRequest with frequency_hz := some (.nonNumeric ("abc")) }) =
      (.err ("Invalid data type for parameters.") 400, initState) :=
  ⟨rfl, configure_rejects_only_type_errors initState _ (Or.inl rfl)⟩

/-- The round-trip request of C5: only `frequency_hz = 5e3` supplied. -/
def onlyFreq5000 : ConfigRequest :=
  { emptyRequest with frequency_hz := some (.num 5000) }

/-- The property C5 claims: after an accepted request supplying only
`frequency_hz = 5e3`, the configuration reads back 5000.0 exactly and
every unsupplied field — amplitude, secondary-wave parameters, phase,
noise, duration, sample count — retains its prior value. -/
def configureRoundTripRetains : Prop :=
  ∀ st : SimState,
    (∃ m c, (handle_configure_cosine st (some onlyFreq5000)).1 = .ok m c) →
    (handle_configure_cosine st (some onlyFreq5000)).2.cosine_frequency_hz = 5000 ∧
    (handle_configure_cosine st (some onlyFreq5000)).2.cosine_amplitude_v =
      st.cosine_amplitude_v ∧
    (handle_configure_cosine st (some onlyFreq5000)).2.cosine2_frequency_hz =
      st.cosine2_frequency_hz ∧
    (handle_configure_cosine st (some onlyFreq5000)).2.cosine2_amplitude_v =
      st.cosine2_amplitude_v ∧
    (handle_configure_cosine st (some onlyFreq5000)).2.cosine_phase_rad =
      st.cosine_phase_rad ∧
    (handle_configure_cosine st (some onlyFreq5000)).2.cosine2_phase_rad =
      st.cosine2_phase_rad ∧
    (handle_configure_cosine st (some onlyFreq5000)).2.noise_amplitude_v =
      st.noise_amplitude_v ∧
    (handle_configure_cosine st (some onlyFreq5000)).2.time_duration_s =
      st.time_duration_s ∧
    (handle_configure_cosine st (some onlyFreq5000)).2.num_time_points =
      st.num_time_points

/-- A reachable state whose main-wave phase is 1 rad: the result of a
direct `configure_cosine_wave` call with `phase_rad = 1` from the
`__init__` state. -/
noncomputable def stPhase1 : SimState :=
  (configure_cosine_wave initState 10000000 1 1 none none 0 2e-7 1000 (1/10)).2

/-- C5 counterexample: from `stPhase1` (phase 1 rad) the frequency-only
request is accepted, but the handler resets the unsupplied
`cosine_phase_rad` to the Python default 0 instead of retaining 1. -/
theorem configure_round_trip_resets_phase : ¬configureRoundTripRetains := by
  intro h
  have hok : (handle_configure_cosine stPhase1 (some onlyFreq5000)).1 =
      .ok ("Cosine wave & display parameters configured") 200 := by
    simp [handle_configure_cosine, onlyFreq5000, emptyRequest, getParam, parseFloat,
      configure_cosine_wave, stPhase1, initState]
  obtain ⟨-, -, -, -, hphase, -⟩ := h stPhase1 ⟨_, _, hok⟩
  have hl : (handle_configure_cosine stPhase1 (some onlyFreq5000)).2.cosine_phase_rad = 0 := by
    simp [handle_configure_cosine, onlyFreq5000, emptyRequest, getParam, parseFloat,
      configure_cosine_wave, stPhase1, initState]
  have hr : stPhase1.cosine_phase_rad = 1 := rfl
  rw [hl, hr] at hphase
  exact zero_ne_one hphase

theorem truncInt_nonpos {q : ℚ} (hq : q ≤ 0) : truncInt q ≤ 0 := by
  unfold truncInt
  split
  · next h =>
    have h0 : q = 0 := le_antisymm hq h
    rw [h0]
    simp
  · next h => exact Int.ceil_le.mpr (by exact_mod_cast hq)

theorem truncInt_natCast (n : ℕ) : truncInt (n : ℚ) = n := by
  unfold truncInt
  rw [if_pos (by positivity)]
  exact_mod_cast Int.floor_natCast n

/-- C5 (amended).  From any connected state with the standard 10
divisions and the derived sample rate (the invariant every reachable
state satisfies), the frequency-only request is accepted; the
configuration then reads back frequency 5000 exactly, and amplitude,
secondary-wave frequency/amplitude, noise, duration, sample count and
sample rate retain their prior values — but the phases do NOT: the
handler always resets `cosine_phase_rad` to 0 and `cosine2_phase_rad` to
π/4 (the Python defaults), because it never forwards phases. -/
theorem configure_freq_round_trip (st : SimState)
    (hconn : st.connected = true)
    (hdiv : st.num_horizontal_divisions = 10)
    (hsr : st.sample_rate_hz = if 0 < st.time_duration_s
      then (st.num_time_points : ℚ) / st.time_duration_s else 500000000) :
    (handle_configure_cosine st (some onlyFreq5000)).1 =
      .ok ("Cosine wave & display parameters configured") 200 ∧
    (handle_configure_cosine st (some onlyFreq5000)).2.cosine_frequency_hz = 5000 ∧
    (handle_configure_cosine st (some onlyFreq5000)).2.cosine_amplitude_v =
      st.cosine_amplitude_v ∧
    (handle_configure_cosine st (some onlyFreq5000)).2.cosine2_frequency_hz =
      st.cosine2_frequency_hz ∧
    (handle_configure_cosine st (some onlyFreq5000)).2.cosine2_amplitude_v =
      st.cosine2_amplitude_v ∧
    (handle_configure_cosine st (some onlyFreq5000)).2.noise_amplitude_v =
      st.noise_amplitude_v ∧
    (handle_configure_cosine st (some onlyFreq5000)).2.time_duration_s =
      st.time_duration_s ∧
    (handle_configure_cosine st (some onlyFreq5000)).2.num_time_points =
      st.num_time_points ∧
    (handle_configure_cosine st (some onlyFreq5000)).2.sample_rate_hz =
      st.sample_rate_hz ∧
    (handle_configure_cosine st (some onlyFreq5000)).2.cosine_phase_rad = 0 ∧
    (handle_configure_cosine st (some onlyFreq5000)).2.cosine2_phase_rad =
      Real.pi / 4 := by
  have hc : ¬st.connected = false := by simp [hconn]
  have hn' : (if truncInt (st.time_duration_s * st.sample_rate_hz) ≤ 0
      then st.num_time_points
      else (truncInt (st.time_duration_s * st.sample_rate_hz)).toNat) =
      st.num_time_points := by
    by_cases hdur : 0 < st.time_duration_s
    · rw [hsr, if_pos hdur]
      have hmd : st.time_duration_s *
          ((st.num_time_points : ℚ) / st.time_duration_s) =
          (st.num_time_points : ℚ) := by
        field_simp
      rw [hmd, truncInt_natCast]
      split <;> omega
    · rw [hsr, if_neg hdur]
      have hle : st.time_duration_s * 500000000 ≤ 0 := by
        nlinarith [not_lt.mp hdur]
      rw [if_pos (truncInt_nonpos hle)]
  have h10 : st.time_duration_s / (st.num_horizontal_divisions : ℚ) *
      (st.num_horizontal_divisions : ℚ) = st.time_duration_s := by
    rw [hdiv]
    norm_num
  refine ⟨?_, ?_, ?_, ?_, ?_, ?_, ?_, ?_, ?_, ?_, ?_⟩
  · simp [handle_configure_cosine, onlyFreq5000, emptyRequest, getParam, parseFloat,
      configure_cosine_wave, hc]
  · simp [handle_configure_cosine, onlyFreq5000, emptyRequest, getParam, parseFloat,
      configure_cosine_wave, hc]
  · simp [handle_configure_cosine, onlyFreq5000, emptyRequest, getParam, parseFloat,
      configure_cosine_wave, hc]
  · simp [handle_configure_cosine, onlyFreq5000, emptyRequest, getParam, parseFloat,
      configure_cosine_wave, hc]
  · simp [handle_configure_cosine, onlyFreq5000, emptyRequest, getParam, parseFloat,
      configure_cosine_wave, hc]
  · simp [handle_configure_cosine, onlyFreq5000, emptyRequest, getParam, parseFloat,
      configure_cosine_wave, hc]
  · simp [handle_configure_cosine, onlyFreq5000, emptyRequest, getParam, parseFloat,
      configure_cosine_wave, hc, h10]
  · simp [handle_configure_cosine, onlyFreq5000, emptyRequest, getParam, parseFloat,
      configure_cosine_wave, hc, hn']
  · simp [handle_configure_cosine, onlyFreq5000, emptyRequest, getParam, parseFloat,
      configure_cosine_wave, hc, h10, hn']
    by_cases hdur : 0 < st.time_duration_s
    · rw [if_pos hdur, hsr, if_pos hdur]
    · rw [if_neg hdur, hsr, if_neg hdur]
  · simp [handle_configure_cosine, onlyFreq5000, emptyRequest, getParam, parseFloat,
      configure_cosine_wave, hc]
  · simp [handle_configure_cosine, onlyFreq5000, emptyRequest, getParam, parseFloat,
      configure_cosine_wave, hc]

/-- C5 witness: the `__init__` state satisfies the hypotheses of the
amended theorem. -/
theorem configure_freq_round_trip_witness :
    (initState.connected = true ∧ initState.num_horizontal_divisions = 10 ∧
      initState.sample_rate_hz = if 0 < initState.time_duration_s
        then (initState.num_time_points : ℚ) / initState.time_duration_s
        else 500000000) ∧
    (handle_configure_cosine initState (some onlyFreq5000)).1 =
      .ok ("Cosine wave & display parameters configured") 200 ∧
    (handle_configure_cosine initState (some onlyFreq5000)).2.cosine_frequency_hz =
      5000 ∧
    (handle_configure_cosine initState (some onlyFreq5000)).2.num_time_points =
      initState.num_time_points := by
  have h1 : initState.connected = true := rfl
  have h2 : initState.num_horizontal_divisions = 10 := rfl
  have h3 : initState.sample_rate_hz = if 0 < initState.time_duration_s
      then (initState.num_time_points : ℚ) / initState.time_duration_s
      else 500000000 := rfl
  obtain ⟨ha, hb, -, -, -, -, -, hn, -⟩ := configure_freq_round_trip initState h1 h2 h3
  exact ⟨⟨h1, h2, h3⟩, ha, hb, hn⟩

/-- The property C6 claims: after ANY `configure_cosine_wave` call that
returns `True`, with any argument values, the state satisfies both
`sample_rate_hz = num_time_points / time_duration_s` and
`time_duration_s = time_per_div_s * num_horizontal_divisions`. -/
def configDerivedFieldsAlwaysConsistent : Prop :=
  ∀ (st : SimState) (f a : ℚ) (p : ℝ) (f2 a2 : Option ℚ) (p2 : ℝ)
    (tpd : ℚ) (n : ℕ) (nv : ℚ),
    (configure_cosine_wave st f a p f2 a2 p2 tpd n nv).1 = true →
    (configure_cosine_wave st f a p f2 a2 p2 tpd n nv).2.sample_rate_hz =
      ((configure_cosine_wave st f a p f2 a2 p2 tpd n nv).2.num_time_points : ℚ) /
        (configure_cosine_wave st f a p f2 a2 p2 tpd n nv).2.time_duration_s ∧
    (configure_cosine_wave st f a p f2 a2 p2 tpd n nv).2.time_duration_s =
      (configure_cosine_wave st f a p f2 a2 p2 tpd n nv).2.time_per_div_s *
        ((configure_cosine_wave st f a p f2 a2 p2 tpd n nv).2.num_horizontal_divisions : ℚ)

/-- C6 counterexample: `configure_cosine_wave` with `time_per_div_s = 0`
returns `True`, but the resulting state has `time_duration_s = 0` and the
fallback `sample_rate_hz = 500e6`, which is not
`num_time_points / time_duration_s`. -/
theorem config_consistency_fails_at_zero_span :
    ¬configDerivedFieldsAlwaysConsistent := by
  intro h
  obtain ⟨h1, -⟩ := h initState 1 1 0 none none 0 0 1000 (1/10)
    (by simp [configure_cosine_wave, initState])
  simp [configure_cosine_wave, initState] at h1

/-- C6 (amended).  After any `configure_cosine_wave` call that returns
`True`: `time_duration_s = time_per_div_s * num_horizontal_divisions`
always holds; `sample_rate_hz = num_time_points / time_duration_s`
whenever the resulting `time_duration_s` is positive; otherwise
`sample_rate_hz` falls back to the constant 500e6.  `sample_rate_hz` is
always derived, never an argument. -/
theorem config_derived_fields (st : SimState) (f a : ℚ) (p : ℝ)
    (f2 a2 : Option ℚ) (p2 : ℝ) (tpd : ℚ) (n : ℕ) (nv : ℚ)
    (hok : (configure_cosine_wave st f a p f2 a2 p2 tpd n nv).1 = true) :
    (configure_cosine_wave st f a p f2 a2 p2 tpd n nv).2.time_duration_s =
      (configure_cosine_wave st f a p f2 a2 p2 tpd n nv).2.time_per_div_s *
        ((configure_cosine_wave st f a p f2 a2 p2 tpd n nv).2.num_horizontal_divisions : ℚ) ∧
    (0 < (configure_cosine_wave st f a p f2 a2 p2 tpd n nv).2.time_duration_s →
      (configure_cosine_wave st f a p f2 a2 p2 tpd n nv).2.sample_rate_hz =
        ((configure_cosine_wave st f a p f2 a2 p2 tpd n nv).2.num_time_points : ℚ) /
          (configure_cosine_wave st f a p f2 a2 p2 tpd n nv).2.time_duration_s) ∧
    (¬0 < (configure_cosine_wave st f a p f2 a2 p2 tpd n nv).2.time_duration_s →
      (configure_cosine_wave st f a p f2 a2 p2 tpd n nv).2.sample_rate_hz =
        500000000) := by
  by_cases hcf : st.connected = false
  · rw [configure_cosine_wave, if_pos hcf] at hok
    exact absurd hok (by simp)
  · unfold configure_cosine_wave
    rw [if_neg hcf]
    dsimp only
    refine ⟨rfl, ?_, ?_⟩
    · intro hd
      rw [if_pos hd]
    · intro hd
      rw [if_neg hd]

/-- C6 witness: a concrete accepted configuration call. -/
theorem config_derived_fields_witness :
    (configure_cosine_wave initState 5000 2 0 none none 0 2e-7 1000 0).1 = true ∧
    (configure_cosine_wave initState 5000 2 0 none none 0 2e-7 1000 0).2.time_duration_s =
      (configure_cosine_wave initState 5000 2 0 none none 0 2e-7 1000 0).2.time_per_div_s *
        ((configure_cosine_wave initState 5000 2 0 none none 0
          2e-7 1000 0).2.num_horizontal_divisions : ℚ) := by
  have hok : (configure_cosine_wave initState 5000 2 0 none none 0 2e-7 1000 0).1 = true := rfl
  exact ⟨hok, (config_derived_fields initState 5000 2 0 none none 0 2e-7 1000 0 hok).1⟩

/-- C7.  Every inbound control command processed by
`RFSpectrumConsumer.receive` produces exactly one acknowledgment (never
silence), and an unrecognized command under `rf_control` yields an
`error_response` whose message is the literal
`"Unknown RF command: <name>"`. -/
theorem receive_always_acknowledges :
    (∀ (m : InboundMsg) (agent : AgentHttpResult), (receive m agent).length = 1) ∧
    (∀ (c : String) (agent : AgentHttpResult) (params : Option ConfigRequest),
      c ∉ knownRfCommands →
      receive (.msg (some ("rf_control")) (some c) params) agent =
        [⟨"error_response", "Unknown RF command: " ++ c⟩]) := by
  constructor
  · intro m agent
    cases m with
    | badJson => rfl
    | notDict => rfl
    | msg ct c p =>
      simp only [receive]
      split_ifs <;> rfl
  · intro c agent params hc
    simp only [knownRfCommands, List.mem_cons, List.not_mem_nil, or_false, not_or] at hc
    obtain ⟨h1, h2, h3⟩ := hc
    simp [receive, optRepr, h1, h2, h3]

/-- C7 witness: the unknown command `"foo"`. -/
theorem receive_always_acknowledges_witness :
    "foo" ∉ knownRfCommands ∧
    receive (.msg (some ("rf_control")) (some ("foo")) none) .netError =
      [⟨"error_response", "Unknown RF command: " ++ "foo"⟩] := by
  have h : "foo" ∉ knownRfCommands := by simp [knownRfCommands]
  exact ⟨h, receive_always_acknowledges.2 ("foo") .netError none h⟩

/-- C8.  `stop` is idempotent — called twice in a row it returns success
both times and leaves `sim_active` false, the second call not changing
the state at all — and a `start` while already Running (active flag set,
loop thread alive) is a no-op that reports success and keeps the existing
state. -/
theorem start_stop_idempotent :
    (∀ st : AgentState,
      (handle_stop_simulation st).1 = .ok ("Simulation stopped") 200 ∧
      (handle_stop_simulation st).2.sim_active = false ∧
      (handle_stop_simulation (handle_stop_simulation st).2).1 =
        .ok ("Simulation stopped") 200 ∧
      (handle_stop_simulation (handle_stop_simulation st).2).2.sim_active = false ∧
      (handle_stop_simulation (handle_stop_simulation st).2).2 =
        (handle_stop_simulation st).2) ∧
    (∀ st : AgentState, st.sim_active = true → st.sim_thread = some true →
      handle_start_simulation st = (.ok ("Simulation already active") 200, st)) := by
  constructor
  · intro st
    exact ⟨rfl, rfl, rfl, rfl, rfl⟩
  · intro st h1 h2
    unfold handle_start_simulation
    rw [if_pos ⟨h1, h2⟩]

/-- C8 witness: a Running state (active flag, live thread). -/
theorem start_stop_idempotent_witness :
    (⟨true, some true, initState⟩ : AgentState).sim_active = true ∧
    (⟨true, some true, initState⟩ : AgentState).sim_thread = some true ∧
    handle_start_simulation ⟨true, some true, initState⟩ =
      (.ok ("Simulation already active") 200, ⟨true, some true, initState⟩) :=
  ⟨rfl, rfl, start_stop_idempotent.2 _ rfl rfl⟩

/-- No event except an explicit stop command ever clears the loop flag. -/
theorem agentStep_preserves_active (st : AgentState) (e : AgentEvent)
    (h : st.sim_active = true) (hne : e ≠ .stopCmd) :
    (agentStep st e).1.sim_active = true := by
  cases e with
  | tick noise =>
    rcases hgd : get_simulated_data st.hal noise with _ | fr <;>
      simp [agentStep, h, hgd]
  | startCmd =>
    by_cases ht : st.sim_thread = some true
    · simp [agentStep, handle_start_simulation, h, ht]
    · by_cases hcn : st.hal.connected = false <;>
        simp [agentStep, handle_start_simulation, SimState.connect, h, ht, hcn]
  | stopCmd => exact absurd rfl hne
  | configureCmd d => simp [agentStep, h]

/-- C9.  While Running, a tick on which the source returns `None` leaves
the state unchanged and emits nothing (the loop retries next tick); the
only event that takes `sim_active` from true to false is an explicit stop
command; hence along any event sequence containing no stop command a
Running agent stays Running. -/
theorem running_survives_source_unavailable :
    (∀ (st : AgentState) (noise : ℕ → ℝ), st.sim_active = true →
      get_simulated_data st.hal noise = none →
      agentStep st (.tick noise) = (st, [])) ∧
    (∀ (st : AgentState) (e : AgentEvent), st.sim_active = true →
      (agentStep st e).1.sim_active = false → e = .stopCmd) ∧
    (∀ (st : AgentState) (es : List AgentEvent), st.sim_active = true →
      AgentEvent.stopCmd ∉ es → (runEvents st es).sim_active = true) := by
  refine ⟨?_, ?_, ?_⟩
  · intro st noise h hnone
    simp [agentStep, h, hnone]
  · intro st e h hfalse
    by_contra hne
    rw [agentStep_preserves_active st e h hne] at hfalse
    exact Bool.noConfusion hfalse
  · intro st es
    induction es generalizing st with
    | nil =>
      intro h _
      simpa [runEvents] using h
    | cons e es ih =>
      intro h hnotin
      rw [List.mem_cons, not_or] at hnotin
      obtain ⟨hne, hnin⟩ := hnotin
      have hstep := agentStep_preserves_active st e h (fun he => hne he.symm)
      have := ih ((agentStep st e).1) hstep hnin
      simpa [runEvents, List.foldl_cons] using this

/-- C9 witness: a Running agent whose source is disconnected (so the
acquisition returns `None`): the tick is skipped and the state kept. -/
theorem running_survives_source_unavailable_witness :
    (⟨true, some true, { initState with connected := false }⟩ : AgentState).sim_active
      = true ∧
    get_simulated_data { initState with connected := false } (fun _ => 0) = none ∧
    agentStep ⟨true, some true, { initState with connected := false }⟩
        (.tick (fun _ => 0)) =
      (⟨true, some true, { initState with connected := false }⟩, []) := by
  have h1 : (⟨true, some true, { initState with connected := false }⟩ :
      AgentState).sim_active = true := rfl
  have h2 : get_simulated_data { initState with connected := false }
      (fun _ => 0) = none := rfl
  exact ⟨h1, h2, running_survives_source_unavailable.1 _ _ h1 h2⟩

/-- C10.  Every returned power spectrum is peak-normalised to the
reference level: on any non-empty sample batch the maximum element of
`fft_power_dbm` equals `spectrum_ref_level_dbm` exactly (and every
element is ≤ it), and both the simulator frames and the hardware
variant output carry exactly this normalised spectrum. -/
theorem spectrum_peak_normalized :
    (∀ (xs : List ℝ) (ref : ℝ), xs ≠ [] →
      npMax (fft_power_dbm xs ref) = ref ∧
      ∀ y ∈ fft_power_dbm xs ref, y ≤ ref) ∧
    (∀ (st : SimState) (noise : ℕ → ℝ) (fr : Frame),
      get_simulated_data st noise = some fr →
      fr.fft_power_dbm =
        fft_power_dbm (amplitude_values_main st noise) st.spectrum_ref_level_dbm ∧
      fr.ref_level_dbm = st.spectrum_ref_level_dbm) ∧
    (∀ (hw : HwState) (xs out : List ℝ),
      get_real_time_data hw xs = some out →
      xs ≠ [] ∧ out = fft_power_dbm xs hw.spectrum_ref_level_dbm) := by
  refine ⟨?_, ?_, ?_⟩
  · intro xs ref _
    have hpsdne : power_spectrum_db xs ≠ [] :=
      List.length_pos.mp (by rw [power_spectrum_db_length]; omega)
    constructor
    · unfold fft_power_dbm
      rw [npMax_map_affine _ _ _ hpsdne]
      ring
    · intro y hy
      unfold fft_power_dbm at hy
      rw [List.mem_map] at hy
      obtain ⟨p, hp, rfl⟩ := hy
      have := le_npMax_of_mem hp
      linarith
  · intro st noise fr hsome
    unfold get_simulated_data at hsome
    split_ifs at hsome
    dsimp only at hsome
    obtain rfl := Option.some.inj hsome
    exact ⟨rfl, rfl⟩
  · intro hw xs out hsome
    unfold get_real_time_data at hsome
    split_ifs at hsome with hc hx
    exact ⟨hx, (Option.some.inj hsome).symm⟩

/-- C10 witness: the one-sample batch `[1]` with reference level 0. -/
theorem spectrum_peak_normalized_witness :
    ([(1 : ℝ)] : List ℝ) ≠ [] ∧ npMax (fft_power_dbm [(1 : ℝ)] 0) = 0 := by
  have h : ([(1 : ℝ)] : List ℝ) ≠ [] := by simp
  exact ⟨h, (spectrum_peak_normalized.1 [(1 : ℝ)] 0 h).1⟩
